import Mathlib

/-!
Verification of the living-room-bot core logic
(src/living_room_bot/main.py), shallowly embedded in Lean 4.

Modelling conventions:
- member and channel identities are natural numbers;
- timestamps and timedeltas are integers (seconds); the source computes
  naive-UTC datetimes, so a single integer timeline is faithful;
- a voice channel carries its id and the list of its current members;
- the message history fetch `channel.history(limit=1000, after=start_time)`
  is modelled as filtering the channel message list to those created
  strictly after the given time and truncating to the limit;
- an operation that sends at most one message returns an `Option String`;
- raising an exception is modelled with `Except`.
-/

namespace LivingRoomBot

/-- A voice channel: its id, and the members currently in it
(`channel.members` in discord terms). -/
structure Channel where
  id : Nat
  members : List Nat
deriving DecidableEq, Repr

/-- A voice state, as passed to `on_voice_state_update`: the channel the
member is in, if any (`VoiceState.channel` may be `None`). -/
structure VoiceState where
  channel : Option Channel
deriving DecidableEq, Repr

/-- A scheduled debounce check: the job added by `on_voice_state_update`
with `func=self.check_debounce`, `args=[member, after.channel]`, firing at
`now + debounce_period`. -/
structure PendingDebounceCheck where
  member : Nat
  channel : Channel
  fire_at : Int
deriving DecidableEq, Repr

/-- A message in the text channel: id, author identity, creation time
(naive-UTC seconds, matching `message.created_at` after the source strips
timezone information). -/
structure Message where
  id : Nat
  author : Nat
  created_at : Int
deriving DecidableEq, Repr

/-- `_LivingRoomClient.on_voice_state_update`: when the after channel of
the member exists, is different from the before channel, has exactly one
member, and is the configured living-room voice channel, schedule a
`check_debounce` job `debounce_period` in the future; otherwise do
nothing. Returns the scheduled job, if any. -/
def on_voice_state_update (voice_id : Nat) (now debounce_period : Int)
    (member : Nat) (before after : VoiceState) : Option PendingDebounceCheck :=
  match after.channel with
  | none => none
  | some ch =>
      let user_changed_channels := decide (some ch ≠ before.channel)
      let only_person_in_channel := ch.members.length == 1
      let in_living_room := ch.id == voice_id
      if user_changed_channels && only_person_in_channel && in_living_room then
        some { member := member, channel := ch, fire_at := now + debounce_period }
      else
        none

/-- The text the bot sends (the source f-string has no interpolated
fields, so the text is the same constant for every member). -/
def notification_text : String := "Someone\x27s in the living room!"

/-- `_LivingRoomClient.check_debounce`: when the debounce job fires, send
the notification exactly when the member is still in the channel.
`some t` means exactly one message with text `t` is sent to the text
channel; `none` means no message is sent. -/
def check_debounce (member : Nat) (channel : Channel) : Option String :=
  if member ∈ channel.members then some notification_text else none

/-- Whether the first list is an initial segment of the second. -/
def leadsWith : List Char → List Char → Bool
  | [], _ => true
  | _ :: _, [] => false
  | a :: as, b :: bs => a == b && leadsWith as bs

/-- Whether the first list occurs contiguously inside the second. -/
def occursIn (pat : List Char) : List Char → Bool
  | [] => pat.isEmpty
  | b :: bs => leadsWith pat (b :: bs) || occursIn pat bs

/-- Whether a message text mentions a given member: the decimal digits
of the member id occur contiguously in the text (a discord member
reference embeds the numeric id). -/
def mentionsId (msg : String) (memberId : Nat) : Bool :=
  occursIn (Nat.repr memberId).toList msg.toList

/-- `self.text_channel.history(limit=..., after=after_time)`: the messages
of the channel created strictly after `after_time`, capped at `limit`. -/
def history (msgs : List Message) (limit : Nat) (after_time : Int) : List Message :=
  (msgs.filter (fun m => decide (after_time < m.created_at))).take limit

/-- The messages one janitor pass fetches: `history(limit=1000,
after=start_time)` with `start_time = now - gc_horizon`. -/
def fetched_messages (now gc_horizon : Int) (msgs : List Message) : List Message :=
  history msgs 1000 (now - gc_horizon)

/-- The per-message deletion test of `clean_up_old_notifications`:
`message.author == self.user and message.created_at < gc_horizon`, where
the local `gc_horizon` is the cutoff `now - gc_after`. -/
def shouldDelete (bot_user : Nat) (cutoff : Int) (m : Message) : Bool :=
  m.author == bot_user && decide (m.created_at < cutoff)

/-- The messages one janitor pass deletes: each fetched message whose
author is the bot and whose creation time is strictly before the cutoff
`now - gc_after`. -/
def deleted_messages (bot_user : Nat) (now gc_after gc_horizon : Int)
    (msgs : List Message) : List Message :=
  (fetched_messages now gc_horizon msgs).filter (shouldDelete bot_user (now - gc_after))

/-- `_LivingRoomClient.clean_up_old_notifications`: fetch up to 1000
messages created after `now - gc_horizon`, delete each fetched message
authored by the bot and created strictly before `now - gc_after`.
Returns the channel message list after the pass. -/
def clean_up_old_notifications (bot_user : Nat) (now gc_after gc_horizon : Int)
    (msgs : List Message) : List Message :=
  msgs.filter (fun m => decide (m ∉ deleted_messages bot_user now gc_after gc_horizon msgs))

/-- The error raised by the `text_channel` property when
`self.get_channel(self._text_id)` returns nothing. -/
inductive ChannelNotFoundError where
  | channelNotFound (id : Nat)
deriving DecidableEq, Repr

/-- `_LivingRoomClient.text_channel`: resolve the configured text channel
id through the gateway cache; raise `ChannelNotFoundError` when the id
does not resolve, otherwise return the channel. -/
def text_channel (get_channel : Nat → Option Channel) (text_id : Nat) :
    Except ChannelNotFoundError Channel :=
  match get_channel text_id with
  | none => Except.error (ChannelNotFoundError.channelNotFound text_id)
  | some c => Except.ok c

/-- The constructor arguments of `_LivingRoomClient` that `get_client`
forwards. -/
structure ClientArgs where
  text_id : Nat
  voice_id : Nat
  gc_after : Int
  gc_horizon : Int
  debounce_period : Int
deriving DecidableEq, Repr

/-- A constructed `_LivingRoomClient` instance, identified by the
arguments it was built from. -/
structure Client where
  args : ClientArgs
deriving DecidableEq, Repr

/-- `get_client`: if the module-global `_CLIENT` is unset, construct a
client from the given arguments and store it; otherwise return the stored
client unchanged. Returns the client and the new global state. -/
def get_client (state : Option Client) (a : ClientArgs) : Client × Option Client :=
  match state with
  | none => (Client.mk a, some (Client.mk a))
  | some c => (c, some c)

/-! ## Theorems -/

/-- C2: `on_voice_state_update` schedules a `PendingDebounceCheck` if and
only if the after channel is the configured living-room voice channel,
the after channel differs from the before channel, and the after channel
has exactly one member at the moment of the transition. -/
theorem voice_state_update_schedules_iff (voice_id : Nat) (now debounce_period : Int)
    (member : Nat) (before after : VoiceState) :
    (∃ job, on_voice_state_update voice_id now debounce_period member before after = some job) ↔
    (∃ ch, after.channel = some ch ∧ ch.id = voice_id ∧
      after.channel ≠ before.channel ∧ ch.members.length = 1) := by
  cases h : after.channel with
  | none => simp [on_voice_state_update, h]
  | some ch =>
      simp only [on_voice_state_update, h]
      constructor
      · rintro ⟨job, hj⟩
        split at hj
        · rename_i hcond
          simp only [Bool.and_eq_true, decide_eq_true_eq, beq_iff_eq] at hcond
          exact ⟨ch, rfl, hcond.2, hcond.1.1, hcond.1.2⟩
        · exact absurd hj (by simp)
      · rintro ⟨ch', hch', hid, hne, hlen⟩
        obtain rfl : ch = ch' := Option.some.inj hch'
        refine ⟨⟨member, ch, now + debounce_period⟩, if_pos ?_⟩
        simp [hlen, hid, hne]

/-- C1 counterexample: a member (id 42) who is the sole occupant of the
target channel when the check fires does get exactly one notification,
but its text is the fixed string, which contains no reference to the
member. -/
theorem check_debounce_no_member_reference :
    check_debounce 42 ⟨7, [42]⟩ = some notification_text ∧
    mentionsId notification_text 42 = false := by
  constructor
  · decide
  · decide

/-- C1 (amended): when the member is still in the channel at fire time,
`check_debounce` sends exactly one message, whose text is always the
constant `notification_text`, independent of the member. -/
theorem check_debounce_sends_fixed_text (member : Nat) (channel : Channel)
    (h : member ∈ channel.members) :
    check_debounce member channel = some notification_text := by
  simp [check_debounce, h]

/-- Witness for the amended C1 at a concrete input. -/
theorem check_debounce_sends_fixed_text_witness :
    42 ∈ (Channel.mk 7 [42]).members ∧
    check_debounce 42 ⟨7, [42]⟩ = some notification_text :=
  ⟨by decide, check_debounce_sends_fixed_text 42 ⟨7, [42]⟩ (by decide)⟩

/-- C4: when the member is no longer in the channel at fire time,
`check_debounce` sends nothing. -/
theorem check_debounce_silent_when_left (member : Nat) (channel : Channel)
    (h : member ∉ channel.members) :
    check_debounce member channel = none := by
  simp [check_debounce, h]

/-- Witness for C4 at a concrete input. -/
theorem check_debounce_silent_when_left_witness :
    5 ∉ (Channel.mk 7 [3]).members ∧ check_debounce 5 ⟨7, [3]⟩ = none :=
  ⟨by decide, check_debounce_silent_when_left 5 ⟨7, [3]⟩ (by decide)⟩

/-- C9: resolving the configured text channel id fails with the distinct
`ChannelNotFoundError` exactly when the id does not resolve, and returns
the channel when it does. -/
theorem text_channel_resolution (get_channel : Nat → Option Channel) (text_id : Nat) :
    (text_channel get_channel text_id =
        Except.error (ChannelNotFoundError.channelNotFound text_id) ↔
      get_channel text_id = none) ∧
    (∀ c, get_channel text_id = some c →
      text_channel get_channel text_id = Except.ok c) := by
  cases h : get_channel text_id with
  | none => simp [text_channel, h]
  | some c => simp [text_channel, h]

/-- Witness for C9 at a concrete resolver. -/
theorem text_channel_resolution_witness :
    text_channel (fun i => if i = 1 then some ⟨1, []⟩ else none) 1 =
      Except.ok ⟨1, []⟩ ∧
    text_channel (fun i => if i = 1 then some ⟨1, []⟩ else none) 2 =
      Except.error (ChannelNotFoundError.channelNotFound 2) :=
  ⟨(text_channel_resolution (fun i => if i = 1 then some ⟨1, []⟩ else none) 1).2
      ⟨1, []⟩ (by decide),
    (text_channel_resolution (fun i => if i = 1 then some ⟨1, []⟩ else none) 2).1.mpr
      (by decide)⟩

/-- C10: the first call stores the client it constructs, and once the
global client exists every later call returns that same instance with the
state unchanged, ignoring its arguments entirely. -/
theorem get_client_singleton :
    (∀ a : ClientArgs, (get_client none a).2 = some (get_client none a).1) ∧
    (∀ (c : Client) (a : ClientArgs), get_client (some c) a = (c, some c)) ∧
    (∀ a1 a2 : ClientArgs,
      (get_client (get_client none a1).2 a2).1 = (get_client none a1).1) :=
  ⟨fun _ => rfl, fun _ _ => rfl, fun _ _ => rfl⟩

/-! ## Janitor helper lemmas -/

/-- Unfolding of the per-message deletion test. -/
theorem shouldDelete_eq_true_iff {bot_user : Nat} {cutoff : Int} {m : Message} :
    shouldDelete bot_user cutoff m = true ↔
      m.author = bot_user ∧ m.created_at < cutoff := by
  simp [shouldDelete]

/-- A fetched message comes from the channel and was created strictly
after the window start. -/
theorem mem_fetched_elim {now gc_horizon : Int} {msgs : List Message} {m : Message}
    (hm : m ∈ fetched_messages now gc_horizon msgs) :
    m ∈ msgs ∧ now - gc_horizon < m.created_at := by
  unfold fetched_messages history at hm
  have h1 := List.mem_of_mem_take hm
  have h2 := List.mem_filter.mp h1
  exact ⟨h2.1, by simpa using h2.2⟩

/-- When at most 1000 channel messages lie after the window start, the
fetch cap does not bite and the fetched list is the whole window. -/
theorem fetched_eq_of_length_le {now gc_horizon : Int} {msgs : List Message}
    (h : (msgs.filter (fun m => decide (now - gc_horizon < m.created_at))).length ≤ 1000) :
    fetched_messages now gc_horizon msgs =
      msgs.filter (fun m => decide (now - gc_horizon < m.created_at)) := by
  unfold fetched_messages history
  exact List.take_of_length_le h

/-- Membership in the deleted list, unfolded. -/
theorem mem_deleted_iff {bot_user : Nat} {now gc_after gc_horizon : Int}
    {msgs : List Message} {m : Message} :
    m ∈ deleted_messages bot_user now gc_after gc_horizon msgs ↔
      m ∈ fetched_messages now gc_horizon msgs ∧
        m.author = bot_user ∧ m.created_at < now - gc_after := by
  simp [deleted_messages, List.mem_filter, shouldDelete, and_assoc]

/-- Membership in the channel after a janitor pass, unfolded. -/
theorem mem_clean_up_iff {bot_user : Nat} {now gc_after gc_horizon : Int}
    {msgs : List Message} {m : Message} :
    m ∈ clean_up_old_notifications bot_user now gc_after gc_horizon msgs ↔
      m ∈ msgs ∧ m ∉ deleted_messages bot_user now gc_after gc_horizon msgs := by
  simp [clean_up_old_notifications, List.mem_filter]

/-- A pass that deletes nothing leaves the channel unchanged. -/
theorem clean_up_eq_self_of_deleted_nil {bot_user : Nat} {now gc_after gc_horizon : Int}
    {msgs : List Message}
    (h : deleted_messages bot_user now gc_after gc_horizon msgs = []) :
    clean_up_old_notifications bot_user now gc_after gc_horizon msgs = msgs := by
  unfold clean_up_old_notifications
  rw [h]
  simp

/-! ## Janitor theorems -/

/-- C8: a janitor pass fetches at most 1000 messages, and hence deletes
at most 1000, no matter how many messages lie in the lookback window. -/
theorem janitor_scan_bound (bot_user : Nat) (now gc_after gc_horizon : Int)
    (msgs : List Message) :
    (fetched_messages now gc_horizon msgs).length ≤ 1000 ∧
    (deleted_messages bot_user now gc_after gc_horizon msgs).length ≤ 1000 := by
  have h1 : (fetched_messages now gc_horizon msgs).length ≤ 1000 := by
    unfold fetched_messages history
    exact List.length_take_le 1000 _
  exact ⟨h1, le_trans (List.filter_sublist _).length_le h1⟩

/-- C5: a janitor pass never deletes a message authored by anyone other
than the bot: the foreign-authored sublist of the channel is unchanged,
and every foreign-authored message survives the pass. -/
theorem clean_up_preserves_foreign_messages (bot_user : Nat)
    (now gc_after gc_horizon : Int) (msgs : List Message) :
    ((clean_up_old_notifications bot_user now gc_after gc_horizon msgs).filter
        (fun m => !(m.author == bot_user)) =
      msgs.filter (fun m => !(m.author == bot_user))) ∧
    (∀ m ∈ msgs, m.author ≠ bot_user →
      m ∈ clean_up_old_notifications bot_user now gc_after gc_horizon msgs) := by
  have hkeep : ∀ m ∈ msgs, m.author ≠ bot_user →
      m ∈ clean_up_old_notifications bot_user now gc_after gc_horizon msgs := by
    intro m hm hne
    rw [mem_clean_up_iff]
    exact ⟨hm, fun hd => hne (mem_deleted_iff.mp hd).2.1⟩
  refine ⟨?_, hkeep⟩
  unfold clean_up_old_notifications
  rw [List.filter_filter]
  refine List.filter_congr ?_
  intro x hx
  cases hb : (x.author == bot_user) with
  | true => simp
  | false =>
      have hne : x.author ≠ bot_user := fun heq => by simp [heq] at hb
      have hnd : x ∉ deleted_messages bot_user now gc_after gc_horizon msgs :=
        fun hd => hne (mem_deleted_iff.mp hd).2.1
      simp [hb, hnd]

/-- Witness for C5 at a concrete input: a foreign-authored old message
survives the pass. -/
theorem clean_up_preserves_foreign_messages_witness :
    ((clean_up_old_notifications 0 100 10 50 [⟨1, 3, 60⟩]).filter
        (fun m => !(m.author == 0)) =
      ([⟨1, 3, 60⟩] : List Message).filter (fun m => !(m.author == 0))) ∧
    (⟨1, 3, 60⟩ : Message) ∈ clean_up_old_notifications 0 100 10 50 [⟨1, 3, 60⟩] :=
  ⟨(clean_up_preserves_foreign_messages 0 100 10 50 [⟨1, 3, 60⟩]).1,
    (clean_up_preserves_foreign_messages 0 100 10 50 [⟨1, 3, 60⟩]).2
      ⟨1, 3, 60⟩ (by decide) (by decide)⟩

/-- C7: a janitor pass never observes (fetches) nor deletes a message
created at or before `now - gc_horizon`; and whenever
`gc_horizon ≤ gc_after` the pass deletes nothing at all. -/
theorem clean_up_never_touches_before_window (bot_user : Nat)
    (now gc_after gc_horizon : Int) (msgs : List Message) :
    (∀ m ∈ msgs, m.created_at ≤ now - gc_horizon →
      m ∉ fetched_messages now gc_horizon msgs ∧
      m ∈ clean_up_old_notifications bot_user now gc_after gc_horizon msgs) ∧
    (gc_horizon ≤ gc_after →
      clean_up_old_notifications bot_user now gc_after gc_horizon msgs = msgs) := by
  constructor
  · intro m hm hle
    have hnf : m ∉ fetched_messages now gc_horizon msgs := fun hf => by
      have := (mem_fetched_elim hf).2
      omega
    refine ⟨hnf, ?_⟩
    rw [mem_clean_up_iff]
    exact ⟨hm, fun hd => hnf (mem_deleted_iff.mp hd).1⟩
  · intro hha
    apply clean_up_eq_self_of_deleted_nil
    unfold deleted_messages
    rw [List.filter_eq_nil_iff]
    intro a ha hD
    obtain ⟨haut, hcr⟩ := shouldDelete_eq_true_iff.mp hD
    have := (mem_fetched_elim ha).2
    omega

/-- Witness for C7 at a concrete input. -/
theorem clean_up_never_touches_before_window_witness :
    ((⟨1, 0, 10⟩ : Message) ∉ fetched_messages 100 40 [⟨1, 0, 10⟩] ∧
      (⟨1, 0, 10⟩ : Message) ∈ clean_up_old_notifications 0 100 50 40 [⟨1, 0, 10⟩]) ∧
    clean_up_old_notifications 0 100 50 40 [⟨1, 0, 10⟩] = [⟨1, 0, 10⟩] :=
  ⟨(clean_up_never_touches_before_window 0 100 50 40 [⟨1, 0, 10⟩]).1
      ⟨1, 0, 10⟩ (by decide) (by decide),
    (clean_up_never_touches_before_window 0 100 50 40 [⟨1, 0, 10⟩]).2 (by decide)⟩

/-- C3: a bot-authored message created exactly at `now - gc_after` is
kept (the comparison is strictly less than), while one created one
second earlier is deleted, provided the window is wide enough to fetch it
and the fetch stayed under the cap. -/
theorem clean_up_retention_boundary (bot_user : Nat) (now gc_after gc_horizon : Int)
    (msgs : List Message) :
    (∀ m ∈ msgs, m.created_at = now - gc_after →
      m ∈ clean_up_old_notifications bot_user now gc_after gc_horizon msgs) ∧
    ((msgs.filter (fun m => decide (now - gc_horizon < m.created_at))).length ≤ 1000 →
      gc_after + 1 < gc_horizon →
      ∀ m ∈ msgs, m.author = bot_user → m.created_at = now - gc_after - 1 →
        m ∉ clean_up_old_notifications bot_user now gc_after gc_horizon msgs) := by
  constructor
  · intro m hm hcreated
    rw [mem_clean_up_iff]
    refine ⟨hm, fun hd => ?_⟩
    have := (mem_deleted_iff.mp hd).2.2
    omega
  · intro hlen hwin m hm hauthor hcreated hmem
    obtain ⟨-, hnd⟩ := mem_clean_up_iff.mp hmem
    apply hnd
    rw [mem_deleted_iff]
    refine ⟨?_, hauthor, by omega⟩
    rw [fetched_eq_of_length_le hlen, List.mem_filter]
    refine ⟨hm, ?_⟩
    simp only [decide_eq_true_eq]
    omega

/-- Witness for C3 at a concrete input: with `now = 100`,
`gc_after = 10`, `gc_horizon = 50`, the message created at 90 is kept and
the one created at 89 is deleted. -/
theorem clean_up_retention_boundary_witness :
    (⟨1, 0, 90⟩ : Message) ∈
      clean_up_old_notifications 0 100 10 50 [⟨1, 0, 90⟩, ⟨2, 0, 89⟩] ∧
    (⟨2, 0, 89⟩ : Message) ∉
      clean_up_old_notifications 0 100 10 50 [⟨1, 0, 90⟩, ⟨2, 0, 89⟩] :=
  ⟨(clean_up_retention_boundary 0 100 10 50 [⟨1, 0, 90⟩, ⟨2, 0, 89⟩]).1
      ⟨1, 0, 90⟩ (by decide) (by decide),
    (clean_up_retention_boundary 0 100 10 50 [⟨1, 0, 90⟩, ⟨2, 0, 89⟩]).2
      (by decide) (by decide) ⟨2, 0, 89⟩ (by decide) (by decide) (by decide)⟩

/-- A channel with 1001 messages inside the lookback window: one old
bot-authored message first, then 999 foreign-authored messages, then one
more old bot-authored message past the 1000-message fetch cap. -/
def capMsgs : List Message :=
  ⟨0, 0, 1⟩ :: (((List.range 999).map (fun i => ⟨i + 1, 1, (i : Int) + 2⟩)) ++
    [⟨1000, 0, 1001⟩])

set_option maxRecDepth 100000 in
/-- C6 counterexample: with more than 1000 messages in the lookback
window, a second janitor pass (same clock, no new messages) deletes a
bot-authored message the first pass could not fetch, so running the pass
twice does not equal running it once. Here `now = 3000`,
`gc_after = 1000`, `gc_horizon = 3000`. -/
theorem clean_up_not_idempotent_at_cap :
    clean_up_old_notifications 0 3000 1000 3000
        (clean_up_old_notifications 0 3000 1000 3000 capMsgs) ≠
      clean_up_old_notifications 0 3000 1000 3000 capMsgs := by
  decide

/-- C6 (amended): a janitor pass is idempotent whenever at most 1000
channel messages lie inside the lookback window, so the 1000-message
fetch cap does not hide any message from the first pass. -/
theorem clean_up_idempotent_within_cap (bot_user : Nat)
    (now gc_after gc_horizon : Int) (msgs : List Message)
    (hlen : (msgs.filter (fun m => decide (now - gc_horizon < m.created_at))).length ≤ 1000) :
    clean_up_old_notifications bot_user now gc_after gc_horizon
        (clean_up_old_notifications bot_user now gc_after gc_horizon msgs) =
      clean_up_old_notifications bot_user now gc_after gc_horizon msgs := by
  apply clean_up_eq_self_of_deleted_nil
  unfold deleted_messages
  rw [List.filter_eq_nil_iff]
  intro a ha hD
  obtain ⟨haut, hcr⟩ := shouldDelete_eq_true_iff.mp hD
  obtain ⟨har, hP⟩ := mem_fetched_elim ha
  obtain ⟨ham, hand⟩ := mem_clean_up_iff.mp har
  apply hand
  rw [mem_deleted_iff]
  refine ⟨?_, haut, hcr⟩
  rw [fetched_eq_of_length_le hlen, List.mem_filter]
  refine ⟨ham, ?_⟩
  simp only [decide_eq_true_eq]
  omega

/-- Witness for the amended C6 at a concrete input. -/
theorem clean_up_idempotent_within_cap_witness :
    (([⟨1, 0, 10⟩] : List Message).filter
        (fun m => decide ((100 : Int) - 50 < m.created_at))).length ≤ 1000 ∧
    clean_up_old_notifications 0 100 5 50
        (clean_up_old_notifications 0 100 5 50 [⟨1, 0, 10⟩]) =
      clean_up_old_notifications 0 100 5 50 [⟨1, 0, 10⟩] :=
  ⟨by decide, clean_up_idempotent_within_cap 0 100 5 50 [⟨1, 0, 10⟩] (by decide)⟩

end LivingRoomBot
